import Mathlib

/-!
# Verification of `ModelReport`
  (torch/ao/quantization/fx/_model_report/model_report.py)

A shallow embedding of the `ModelReport` coordinator class.  Python
dictionaries are modelled as insertion-ordered association lists
(`PyDict`), the FX `GraphModule` as a list of named submodules plus a
list of graph nodes, and each method of the class as a pure function
from the instance state (`ModelReport`) to a result together with the
post-call state.  Exceptions are modelled with `Except String`.
-/

set_option autoImplicit false

/-! ## Python dictionaries as insertion-ordered association lists -/

/-- A Python `dict` with `String` keys: an insertion-ordered association
list.  Keys are unique in any dict built by `PyDict.insert` from `[]`. -/
abbrev PyDict (V : Type) := List (String × V)

namespace PyDict

variable {V : Type}

/-- `d[k]` lookup: the value at the first entry whose key is `k`. -/
def lookup : PyDict V → String → Option V
  | [], _ => none
  | p :: rest, k => if p.1 = k then some p.2 else lookup rest k

/-- `k in d`. -/
def contains (d : PyDict V) (k : String) : Bool :=
  (lookup d k).isSome

/-- `d.keys()`, in insertion order. -/
def keys (d : PyDict V) : List String :=
  d.map (·.1)

/-- `d[k] = v`: replace the value in place if the key is present,
otherwise append the new entry at the end (Python dict semantics). -/
def insert : PyDict V → String → V → PyDict V
  | [], k, v => [(k, v)]
  | p :: rest, k, v => if p.1 = k then (k, v) :: rest else p :: insert rest k v

/-- `a.update(b)` / `{**a, **b}`: insert every entry of `b` into `a`,
in order. -/
def update (a b : PyDict V) : PyDict V :=
  b.foldl (fun acc p => insert acc p.1 p.2) a

@[simp] theorem lookup_nil (k : String) : lookup ([] : PyDict V) k = none := rfl

@[simp] theorem lookup_cons (p : String × V) (rest : PyDict V) (k : String) :
    lookup (p :: rest) k = if p.1 = k then some p.2 else lookup rest k := rfl

@[simp] theorem keys_nil : keys ([] : PyDict V) = [] := rfl

@[simp] theorem keys_cons (p : String × V) (rest : PyDict V) :
    keys (p :: rest) = p.1 :: keys rest := rfl

theorem contains_iff_mem_keys (d : PyDict V) (k : String) :
    contains d k = true ↔ k ∈ keys d := by
  induction d with
  | nil => simp [contains, lookup]
  | cons p rest ih =>
    by_cases h : p.1 = k
    · simp [contains, lookup, h, keys]
    · have hstep : contains (p :: rest) k = contains rest k := by
        simp [contains, lookup, h]
      rw [hstep, ih]
      simp only [keys_cons, List.mem_cons]
      constructor
      · intro hk
        exact Or.inr hk
      · intro hk
        rcases hk with hk | hk
        · exact absurd hk.symm h
        · exact hk

theorem lookup_isSome_iff_contains (d : PyDict V) (k : String) :
    (lookup d k).isSome = contains d k := rfl

theorem contains_eq_false_iff (d : PyDict V) (k : String) :
    contains d k = false ↔ lookup d k = none := by
  cases h : lookup d k <;> simp [contains, h]

theorem lookup_insert_self (d : PyDict V) (k : String) (v : V) :
    lookup (insert d k v) k = some v := by
  induction d with
  | nil => simp [insert, lookup]
  | cons p rest ih =>
    by_cases h : p.1 = k <;> simp [insert, h, lookup, ih]

theorem lookup_insert_ne (d : PyDict V) (k k' : String) (v : V) (h : k' ≠ k) :
    lookup (insert d k v) k' = lookup d k' := by
  induction d with
  | nil =>
    simp only [insert, lookup]
    rw [if_neg (Ne.symm h)]
  | cons p rest ih =>
    by_cases hp : p.1 = k
    · have hp' : p.1 ≠ k' := fun hc => h (hc.symm.trans hp)
      simp only [insert, if_pos hp, lookup]
      rw [if_neg (Ne.symm h), if_neg hp']
    · simp only [insert, if_neg hp, lookup, ih]

theorem mem_keys_insert (d : PyDict V) (k k' : String) (v : V) :
    k' ∈ keys (insert d k v) ↔ k' ∈ keys d ∨ k' = k := by
  induction d with
  | nil => simp [insert, keys]
  | cons p rest ih =>
    by_cases h : p.1 = k
    · simp only [insert, if_pos h, keys_cons, List.mem_cons]
      rw [h]
      tauto
    · simp only [insert, if_neg h, keys_cons, List.mem_cons]
      rw [ih]
      tauto

theorem keys_nodup_insert (d : PyDict V) (k : String) (v : V)
    (h : (keys d).Nodup) : (keys (insert d k v)).Nodup := by
  induction d with
  | nil => simp [insert, keys]
  | cons p rest ih =>
    simp only [keys_cons, List.nodup_cons] at h
    by_cases hp : p.1 = k
    · simp only [insert, if_pos hp, keys_cons, List.nodup_cons]
      rw [← hp]
      exact h
    · simp only [insert, if_neg hp, keys_cons, List.nodup_cons]
      refine ⟨fun hmem => ?_, ih h.2⟩
      rcases (mem_keys_insert rest k p.1 v).mp hmem with hk | hk
      · exact h.1 hk
      · exact hp hk

theorem mem_keys_update (a b : PyDict V) (k : String) :
    k ∈ keys (update a b) ↔ k ∈ keys a ∨ k ∈ keys b := by
  induction b generalizing a with
  | nil => simp [update, keys]
  | cons p rest ih =>
    show k ∈ keys (update (insert a p.1 p.2) rest) ↔ _
    rw [ih]
    rw [mem_keys_insert]
    simp [keys]
    tauto

theorem keys_nodup_update (a b : PyDict V) (h : (keys a).Nodup) :
    (keys (update a b)).Nodup := by
  induction b generalizing a with
  | nil => exact h
  | cons p rest ih =>
    exact ih (insert a p.1 p.2) (keys_nodup_insert a p.1 p.2 h)

theorem contains_of_lookup_some (d : PyDict V) (k : String) (v : V)
    (h : lookup d k = some v) : contains d k = true := by
  simp [contains, h]

end PyDict

/-! ## Feature values stored in report dictionaries -/

/-- A value stored in a per-module feature dictionary.  Tensors are
modelled as lists of integers (the only operation the code performs on
them is elementwise comparison); every other Python value is modelled
by one of the remaining constructors. -/
inductive Val where
  | tensor (data : List Int)
  | str (s : String)
  | int (n : Int)
  | bool (b : Bool)
deriving DecidableEq, Repr

/-- The per-key comparison performed by `_is_same_info_for_same_key`:
tensors are compared elementwise (`sum(a != b) != 0` fails exactly when
the lists differ), a tensor compared with a non-tensor is an automatic
mismatch, and all other values are compared with `!=`. -/
def valMatches (a b : Val) : Bool :=
  match a, b with
  | .tensor da, .tensor db => da == db
  | .tensor _, _ => false
  | a, b => a == b

theorem valMatches_iff_eq (a b : Val) : valMatches a b = true ↔ a = b := by
  cases a <;> cases b <;> simp [valMatches]

/-! ## The FX graph model -/

/-- A submodule of the model.  Its internals are irrelevant to
`ModelReport`; the tag stands for object identity. -/
structure NNModule where
  tag : String
deriving DecidableEq, Repr

/-- A node of the FX graph.  `id` models Python object identity so that
two nodes with the same `op`/`target` are still distinguishable;
`target` is the fully qualified name the node refers to. -/
structure Node where
  id : Nat
  op : String
  target : String
deriving DecidableEq, Repr

/-- The slice of `torch.fx.GraphModule` that `ModelReport` uses: the
named submodules in `named_modules()` order, and the graph's nodes in
graph order. -/
structure GraphModule where
  modules : PyDict NNModule
  nodes : List Node
deriving DecidableEq, Repr

namespace GraphModule

/-- An id not used by any node of the graph, for `graph.create_node`. -/
def freshId (m : GraphModule) : Nat :=
  (m.nodes.map (·.id)).foldl max 0 + 1

/-- `GraphModule.delete_submodule`: removes the submodule if present
(the Boolean success flag it returns is ignored by the caller). -/
def deleteSubmodule (m : GraphModule) (fqn : String) : GraphModule :=
  { m with modules := m.modules.filter (fun p => p.1 ≠ fqn) }

/-- `graph.erase_node`: removes the given node from the graph. -/
def eraseNode (m : GraphModule) (n : Node) : GraphModule :=
  { m with nodes := m.nodes.erase n }

end GraphModule

/-- Python truthiness of a `torch.fx.Node`: the class defines neither
`__bool__` nor `__len__`, so `if node_obj:` is true for every node. -/
def nodeTruthy (_ : Node) : Bool := true

/-! ## External detector interface

Modelled from the spec: the `Detector`, its insertion-point info
dictionary (keyed by `DETECTOR_TARGET_NODE_KEY`,
`DETECTOR_OBS_TO_INSERT_KEY`, `DETECTOR_IS_POST_OBS_KEY`,
`DETECTOR_OBS_ARGS_KEY`) and `DetectorQConfigInfo` live in
`torch/ao/quantization/fx/_model_report/detector.py`, which is not part
of this excerpt; per the spec a detector is an "external-framework
component that inspects a graph and proposes observer-insertion points
and quantization suggestions", so the functions below are opaque
per-detector data. -/

/-- An opaque quantization configuration produced by the external
framework (`QConfig` / `EqualizationQConfig`). -/
structure QConfig where
  tag : String
deriving DecidableEq, Repr

/-- The info dictionary a detector returns for one observer insertion
point, with one field per `DETECTOR_*_KEY` entry. -/
structure ObserverInsertInfo where
  targetNode : Node
  obsToInsert : NNModule
  isPost : Bool
  obsArgs : List String

/-- Modelled from the spec: `DetectorQConfigInfo` (defined in the
missing `detector.py`).  The excerpted code reads and writes its three
Boolean suggestion fields and calls its two qconfig generators. -/
structure DetectorQConfigInfo where
  isActivationDynamic : Bool
  isWeightPerChannel : Bool
  isEqualizationRecommended : Bool
  generateQuantizationQconfig : NNModule → QConfig
  generateEqualizationQconfig : QConfig

/-- Modelled from the spec: a detector (`DetectorBase` subclass from the
missing `detector.py`), i.e. a name together with the three opaque
per-detector functions the excerpted code calls. -/
structure Detector where
  name : String
  determineObserverInsertPoints : GraphModule → PyDict ObserverInsertInfo
  generateDetectorReport : GraphModule → String × PyDict (PyDict Val)
  getQconfigInfo : GraphModule → PyDict DetectorQConfigInfo

/-! ## The `ModelReport` state -/

/-- The instance attributes of a `ModelReport` object.  Python sets of
strings are modelled as lists without duplicates (`_desired_detector_names`
and the values of `_detector_name_to_observer_fqns`); the set of
detector objects is modelled as a list. -/
structure ModelReport where
  model : GraphModule
  desiredReportDetectors : List Detector
  desiredDetectorNames : List String
  detectorNameToObserverFqns : PyDict (List String)
  preparedFlag : Bool
  removedObservers : Bool
  generatedReports : PyDict (PyDict (PyDict Val))

namespace ModelReport

/-- `ModelReport.__init__`. -/
def init (model : GraphModule) (desiredReportDetectors : List Detector) :
    Except String ModelReport :=
  if desiredReportDetectors.length = 0 then
    .error "Should include at least 1 desired report"
  else
    let names := (desiredReportDetectors.map (·.name)).dedup
    .ok { model := model
          desiredReportDetectors := desiredReportDetectors
          desiredDetectorNames := names
          detectorNameToObserverFqns := names.map (fun n => (n, []))
          preparedFlag := false
          removedObservers := false
          generatedReports := [] }

/-- `ModelReport._insert_observer_around_module`: with
`graph.inserting_before(target_node)` (or before `target_node.next`
when `insert_post`), add the observer as a submodule and create a
`call_module` node for it at that position. -/
def insertObserverAroundModule (m : GraphModule) (obsFqn : String)
    (info : ObserverInsertInfo) : GraphModule :=
  let i := m.nodes.findIdx (fun n => n == info.targetNode)
  let pos := if info.isPost then i + 1 else i
  let newNode : Node := { id := m.freshId, op := "call_module", target := obsFqn }
  { modules := PyDict.insert m.modules obsFqn info.obsToInsert
    nodes := m.nodes.take pos ++ [newNode] ++ m.nodes.drop pos }

/-- `ModelReport.prepare_detailed_calibration`.  Returns the method's
result (the model, or the raised error) together with the post-call
instance state. -/
def prepareDetailedCalibration (s : ModelReport) :
    Except String GraphModule × ModelReport :=
  if s.preparedFlag then
    (.error "Already ran preparing detailed callibration. Run the report generation next after callibration.", s)
  else
    let folded :=
      s.desiredReportDetectors.foldl
        (fun (acc : PyDict ObserverInsertInfo × PyDict (List String)) d =>
          let obsFqnToInfo := d.determineObserverInsertPoints s.model
          (PyDict.update acc.1 obsFqnToInfo,
           PyDict.insert acc.2 d.name (PyDict.keys obsFqnToInfo)))
        ([], s.detectorNameToObserverFqns)
    let model' := folded.1.foldl
      (fun m p => insertObserverAroundModule m p.1 p.2) s.model
    (.ok model',
     { s with model := model'
              detectorNameToObserverFqns := folded.2
              preparedFlag := true })

/-- `ModelReport._get_node_from_fqn`: the first node whose `target`
equals the fqn, or a raised `ValueError` when there is none (the
function never returns `None`). -/
def getNodeFromFqn (m : GraphModule) (nodeFqn : String) : Except String Node :=
  match m.nodes.find? (fun n => n.target == nodeFqn) with
  | some n => .ok n
  | none => .error "The node_fqn is was not found within the module."

/-- The set `all_observers_of_interest` built in
`generate_model_report`: the union over every detector of its recorded
observer fqns (the Python set is modelled as the duplicate-free list of
fqns in recording order). -/
def allObserversOfInterest (s : ModelReport) : List String :=
  (s.detectorNameToObserverFqns.foldl (fun acc p => acc ++ p.2) []).dedup

/-- The observer-removal loop of `generate_model_report`: for each fqn,
`delete_submodule`, look the node up (raising if absent), test the node
for truthiness (`if node_obj:`) and erase it — raising the
"Node no longer exists" error on a falsy node.  Returns the result of
the loop together with the model state it leaves behind. -/
def removeObserversLoop (m : GraphModule) :
    List String → Except String Unit × GraphModule
  | [] => (.ok (), m)
  | fqn :: rest =>
    let m1 := m.deleteSubmodule fqn
    match getNodeFromFqn m1 fqn with
    | .error e => (.error e, m1)
    | .ok nodeObj =>
      if nodeTruthy nodeObj then
        removeObserversLoop (m1.eraseNode nodeObj) rest
      else
        (.error "Node no longer exists in GraphModule structure", m1)

/-- `ModelReport.generate_model_report`.  Returns the reports dict (or
the raised error) together with the post-call instance state; note that
`_removed_observers` is set before the removal loop runs, so it is set
even when the loop raises. -/
def generateModelReport (s : ModelReport) (removeInsertedObservers : Bool) :
    Except String (PyDict (String × PyDict (PyDict Val))) × ModelReport :=
  if !s.preparedFlag then
    (.error "Cannot generate report without preparing model for callibration", s)
  else if s.removedObservers then
    (.error "Cannot generate report on model you already removed observers from", s)
  else
    let reportsOfInterest :=
      s.desiredReportDetectors.foldl
        (fun (acc : PyDict (String × PyDict (PyDict Val))) d =>
          PyDict.insert acc d.name (d.generateDetectorReport s.model))
        []
    let savedReports : PyDict (PyDict (PyDict Val)) :=
      reportsOfInterest.map (fun p => (p.1, p.2.2))
    if removeInsertedObservers then
      let s1 := { s with removedObservers := true }
      match removeObserversLoop s1.model (allObserversOfInterest s1) with
      | (.error e, m') => (.error e, { s1 with model := m' })
      | (.ok (), m') =>
        (.ok reportsOfInterest,
         { s1 with model := m', generatedReports := savedReports })
    else
      (.ok reportsOfInterest, { s with generatedReports := savedReports })

end ModelReport

namespace ModelReport

/-- `ModelReport._is_same_info_for_same_key`: every key common to the
two dictionaries must carry matching values (`valMatches`). -/
def isSameInfoForSameKey (infoDictA infoDictB : PyDict Val) : Bool :=
  ((PyDict.keys infoDictA).filter
      (fun k => PyDict.contains infoDictB k)).all
    (fun k =>
      match PyDict.lookup infoDictA k, PyDict.lookup infoDictB k with
      | some dictAVal, some dictBVal => valMatches dictAVal dictBVal
      | _, _ => true)

/-- `ModelReport._reformat_reports_for_visualizer`: accumulate every
report's per-module feature dictionaries into one dictionary per
module, checking shared keys for equal values (raising `ValueError` on
a conflict), then order the modules by their position in
`named_modules()`. -/
def reformatReportsForVisualizer (s : ModelReport) :
    Except String (PyDict (PyDict Val)) := do
  let moduleFqnsToFeatures ←
    s.generatedReports.foldlM
      (fun acc (rp : String × PyDict (PyDict Val)) =>
        rp.2.foldlM
          (fun (acc2 : PyDict (PyDict Val)) (mi : String × PyDict Val) =>
            match PyDict.lookup acc2 mi.1 with
            | some presentInfo =>
              let newInfo := mi.2
              if isSameInfoForSameKey newInfo presentInfo then
                Except.ok
                  (PyDict.insert acc2 mi.1 (PyDict.update newInfo presentInfo))
              else
                Except.error
                  "You have the same key with different values across detectors. Someone incorrectly implemented a detector with conflicting keys to existing detectors."
            | none => Except.ok (PyDict.insert acc2 mi.1 mi.2))
          acc)
      ([] : PyDict (PyDict Val))
  Except.ok
    (s.model.modules.foldl
      (fun (featuresByModule : PyDict (PyDict Val)) p =>
        match PyDict.lookup moduleFqnsToFeatures p.1 with
        | some feats => PyDict.insert featuresByModule p.1 feats
        | none => featuresByModule)
      [])

/-- The `ModelReportVisualizer` instance: it is constructed from the
ordered module-to-features dictionary. -/
structure Visualizer where
  moduleFqnsToFeatures : PyDict (PyDict Val)

/-- `ModelReport.generate_visualizer`: raises when no report has been
generated yet, otherwise wraps the reformatted reports. -/
def generateVisualizer (s : ModelReport) : Except String Visualizer :=
  if s.generatedReports.length = 0 then
    .error "Unable to generate visualizers without first generating reports"
  else do
    let moduleFqnsToFeatures ← reformatReportsForVisualizer s
    .ok ⟨moduleFqnsToFeatures⟩

/-- `ModelReport._update_detector_quantizaiton_qconfig_info` (the
source's spelling): OR the dynamic-activation and per-channel-weight
suggestions of the new info into the combined info. -/
def updateDetectorQuantizaitonQconfigInfo
    (combinedInfo newInfo : DetectorQConfigInfo) : DetectorQConfigInfo :=
  { combinedInfo with
    isActivationDynamic :=
      combinedInfo.isActivationDynamic || newInfo.isActivationDynamic
    isWeightPerChannel :=
      combinedInfo.isWeightPerChannel || newInfo.isWeightPerChannel }

/-- `ModelReport._update_detector_equalization_qconfig_info`: OR the
equalization suggestion of the new info into the combined info. -/
def updateDetectorEqualizationQconfigInfo
    (combinedInfo newInfo : DetectorQConfigInfo) : DetectorQConfigInfo :=
  { combinedInfo with
    isEqualizationRecommended :=
      combinedInfo.isEqualizationRecommended ||
        newInfo.isEqualizationRecommended }

/-- `ModelReport._generate_module_fqn_to_detector_info_mapping`: after
the prepared/removed checks, fold every detector's qconfig info into a
per-module dictionary, combining entries for a module reported by
several detectors with the given update function.  (Reads but never
writes the instance state.) -/
def generateModuleFqnToDetectorInfoMapping (s : ModelReport)
    (updateQconfigInfoFunction :
      DetectorQConfigInfo → DetectorQConfigInfo → DetectorQConfigInfo) :
    Except String (PyDict DetectorQConfigInfo) :=
  if !s.preparedFlag then
    .error "Cannot generate report without preparing model for callibration"
  else if s.removedObservers then
    .error "Cannot generate report on model you already removed observers from"
  else
    .ok (s.desiredReportDetectors.foldl
      (fun combined d =>
        (d.getQconfigInfo s.model).foldl
          (fun (c : PyDict DetectorQConfigInfo) p =>
            match PyDict.lookup c p.1 with
            | some currentOptions =>
              PyDict.insert c p.1 (updateQconfigInfoFunction currentOptions p.2)
            | none => PyDict.insert c p.1 p.2)
          combined)
      [])

/-- `QConfigMapping` restricted to what the code builds:
`set_module_name` entries. -/
structure QConfigMapping where
  moduleNameQconfigs : PyDict QConfig
deriving DecidableEq, Repr

/-- `ModelReport._generate_qconfig_mapping_helper`: walk
`named_modules()` and set a qconfig for every module that has combined
detector info. -/
def generateQconfigMappingHelper (s : ModelReport)
    (detectorQconfigInfoCombined : PyDict DetectorQConfigInfo)
    (generationFunction : DetectorQConfigInfo → NNModule → QConfig) :
    QConfigMapping :=
  s.model.modules.foldl
    (fun qm p =>
      match PyDict.lookup detectorQconfigInfoCombined p.1 with
      | some qconfigInfoCompiled =>
        { moduleNameQconfigs :=
            PyDict.insert qm.moduleNameQconfigs p.1
              (generationFunction qconfigInfoCompiled p.2) }
      | none => qm)
    ⟨[]⟩

/-- `ModelReport._quantization_config_generator`. -/
def quantizationConfigGenerator (detectorQconfigInfo : DetectorQConfigInfo)
    (module : NNModule) : QConfig :=
  detectorQconfigInfo.generateQuantizationQconfig module

/-- `ModelReport._equalization_config_generator` (ignores the module). -/
def equalizationConfigGenerator (detectorQconfigInfo : DetectorQConfigInfo)
    (_ : NNModule) : QConfig :=
  detectorQconfigInfo.generateEqualizationQconfig

/-- `ModelReport.generate_qconfig_mapping`.  (Reads but never writes
the instance state.) -/
def generateQconfigMapping (s : ModelReport) : Except String QConfigMapping := do
  let detectorQconfigInfoCombined ←
    generateModuleFqnToDetectorInfoMapping s updateDetectorQuantizaitonQconfigInfo
  Except.ok
    (generateQconfigMappingHelper s detectorQconfigInfoCombined
      quantizationConfigGenerator)

/-- `ModelReport.generate_equalization_mapping`.  (Reads but never
writes the instance state.) -/
def generateEqualizationMapping (s : ModelReport) :
    Except String QConfigMapping := do
  let detectorQconfigInfoCombined ←
    generateModuleFqnToDetectorInfoMapping s updateDetectorEqualizationQconfigInfo
  Except.ok
    (generateQconfigMappingHelper s detectorQconfigInfoCombined
      equalizationConfigGenerator)

/-- `ModelReport.get_desired_reports_names` (returns a copy). -/
def getDesiredReportsNames (s : ModelReport) : List String :=
  s.desiredDetectorNames

/-- `ModelReport.get_observers_of_interest` (returns a copy). -/
def getObserversOfInterest (s : ModelReport) : PyDict (List String) :=
  s.detectorNameToObserverFqns

end ModelReport

/-! ## Method calls as a step relation -/

/-- One public method call on a `ModelReport` instance. -/
inductive MethodCall where
  | prepareDetailedCalibration
  | generateModelReport (removeInsertedObservers : Bool)
  | generateVisualizer
  | generateQconfigMapping
  | generateEqualizationMapping
  | getDesiredReportsNames
  | getObserversOfInterest
deriving DecidableEq, Repr

/-- The instance state after one method call (whether or not the call
raised): `prepare_detailed_calibration` and `generate_model_report`
are the only methods that assign to the instance attributes; the
remaining methods read the state only. -/
def methodStep (s : ModelReport) : MethodCall → ModelReport
  | .prepareDetailedCalibration => (s.prepareDetailedCalibration).2
  | .generateModelReport b => (s.generateModelReport b).2
  | .generateVisualizer => s
  | .generateQconfigMapping => s
  | .generateEqualizationMapping => s
  | .getDesiredReportsNames => s
  | .getObserversOfInterest => s

/-- The instance state after a sequence of method calls. -/
def runCalls (s : ModelReport) (calls : List MethodCall) : ModelReport :=
  calls.foldl methodStep s

/-! ## Concrete sample instances -/

/-- A linear-layer node of the sample model. -/
def sampleNode : Node := { id := 0, op := "call_module", target := "fc" }

/-- A two-module sample model with a single graph node. -/
def sampleModel : GraphModule :=
  { modules := [("", ⟨"root"⟩), ("fc", ⟨"fc"⟩)], nodes := [sampleNode] }

/-- The qconfig info a sample detector reports for the `fc` module. -/
def sampleQInfo : DetectorQConfigInfo :=
  { isActivationDynamic := true
    isWeightPerChannel := false
    isEqualizationRecommended := true
    generateQuantizationQconfig := fun _ => ⟨"qconfig"⟩
    generateEqualizationQconfig := ⟨"eqconfig"⟩ }

/-- A sample detector proposing one observer after the `fc` node. -/
def sampleDetector : Detector :=
  { name := "det1"
    determineObserverInsertPoints := fun _ =>
      [("fc.obs", { targetNode := sampleNode
                    obsToInsert := ⟨"observer"⟩
                    isPost := true
                    obsArgs := [] })]
    generateDetectorReport := fun _ =>
      ("report text", [("fc", [("feat", Val.int 1)])])
    getQconfigInfo := fun _ => [("fc", sampleQInfo)] }

/-- A freshly constructed sample `ModelReport` instance. -/
def sampleState : ModelReport :=
  { model := sampleModel
    desiredReportDetectors := [sampleDetector]
    desiredDetectorNames := ["det1"]
    detectorNameToObserverFqns := [("det1", [])]
    preparedFlag := false
    removedObservers := false
    generatedReports := [] }

/-- A sample instance after a successful preparation: the observer
`fc.obs` has been inserted as a submodule and recorded. -/
def sampleReadyState : ModelReport :=
  { model := { modules := [("", ⟨"root"⟩), ("fc", ⟨"fc"⟩), ("fc.obs", ⟨"observer"⟩)]
               nodes := [sampleNode, { id := 1, op := "call_module", target := "fc.obs" }] }
    desiredReportDetectors := [sampleDetector]
    desiredDetectorNames := ["det1"]
    detectorNameToObserverFqns := [("det1", ["fc.obs"])]
    preparedFlag := true
    removedObservers := false
    generatedReports := [] }

/-- A sample instance whose observers were already removed. -/
def sampleRemovedState : ModelReport :=
  { sampleState with preparedFlag := true, removedObservers := true }

/-! ## C2: generation before preparation raises and leaves state alone -/

/-- C2: on every `ModelReport` whose prepared flag is false,
`generate_model_report` raises and returns the state unchanged, and
qconfig-mapping and equalization-mapping generation raise as well
(both are read-only on the instance state). -/
theorem generate_before_prepare_raises (s : ModelReport) (b : Bool)
    (h : s.preparedFlag = false) :
    (s.generateModelReport b).1 =
        .error "Cannot generate report without preparing model for callibration" ∧
    (s.generateModelReport b).2 = s ∧
    s.generateQconfigMapping =
        .error "Cannot generate report without preparing model for callibration" ∧
    s.generateEqualizationMapping =
        .error "Cannot generate report without preparing model for callibration" := by
  refine ⟨?_, ?_, ?_, ?_⟩ <;>
    simp [ModelReport.generateModelReport, ModelReport.generateQconfigMapping,
          ModelReport.generateEqualizationMapping,
          ModelReport.generateModuleFqnToDetectorInfoMapping, h,
          Bind.bind, Except.bind]

/-- Witness for C2 at the sample state. -/
theorem generate_before_prepare_raises_witness :
    sampleState.preparedFlag = false ∧
    ((sampleState.generateModelReport true).1 =
        .error "Cannot generate report without preparing model for callibration" ∧
     (sampleState.generateModelReport true).2 = sampleState ∧
     sampleState.generateQconfigMapping =
        .error "Cannot generate report without preparing model for callibration" ∧
     sampleState.generateEqualizationMapping =
        .error "Cannot generate report without preparing model for callibration") :=
  ⟨rfl, generate_before_prepare_raises sampleState true rfl⟩

/-! ## C3: generation after observer removal raises -/

/-- C3: on every `ModelReport` whose removed-observers flag is set, a
later `generate_model_report` raises and leaves the state unchanged,
and qconfig-mapping and equalization-mapping generation raise as
well. -/
theorem generate_after_removal_raises (s : ModelReport) (b : Bool)
    (h : s.removedObservers = true) :
    (∃ e, (s.generateModelReport b).1 = .error e) ∧
    (s.generateModelReport b).2 = s ∧
    (∃ e, s.generateQconfigMapping = .error e) ∧
    (∃ e, s.generateEqualizationMapping = .error e) := by
  by_cases hp : s.preparedFlag
  · refine ⟨⟨"Cannot generate report on model you already removed observers from", ?_⟩, ?_,
        ⟨"Cannot generate report on model you already removed observers from", ?_⟩,
        ⟨"Cannot generate report on model you already removed observers from", ?_⟩⟩ <;>
      simp [ModelReport.generateModelReport, ModelReport.generateQconfigMapping,
            ModelReport.generateEqualizationMapping,
            ModelReport.generateModuleFqnToDetectorInfoMapping, h, hp,
            Bind.bind, Except.bind]
  · refine ⟨⟨"Cannot generate report without preparing model for callibration", ?_⟩, ?_,
        ⟨"Cannot generate report without preparing model for callibration", ?_⟩,
        ⟨"Cannot generate report without preparing model for callibration", ?_⟩⟩ <;>
      simp [ModelReport.generateModelReport, ModelReport.generateQconfigMapping,
            ModelReport.generateEqualizationMapping,
            ModelReport.generateModuleFqnToDetectorInfoMapping, h, hp,
            Bind.bind, Except.bind]

/-- Witness for C3 at the sample post-removal state. -/
theorem generate_after_removal_raises_witness :
    sampleRemovedState.removedObservers = true ∧
    ((∃ e, (sampleRemovedState.generateModelReport false).1 = .error e) ∧
     (sampleRemovedState.generateModelReport false).2 = sampleRemovedState ∧
     (∃ e, sampleRemovedState.generateQconfigMapping = .error e) ∧
     (∃ e, sampleRemovedState.generateEqualizationMapping = .error e)) :=
  ⟨rfl, generate_after_removal_raises sampleRemovedState false rfl⟩

/-! ## C4: construction checks the detector set -/

/-- Helper: looking up any listed name in the freshly initialized
name-to-observers map yields the empty set. -/
theorem lookup_init_map (names : List String) (k : String) (h : k ∈ names) :
    PyDict.lookup (names.map (fun n => (n, ([] : List String)))) k = some [] := by
  induction names with
  | nil => cases h
  | cons n rest ih =>
    by_cases hn : n = k
    · simp [PyDict.lookup, hn]
    · rcases List.mem_cons.mp h with hk | hk
      · exact absurd hk.symm hn
      · simp [PyDict.lookup, hn, ih hk]

/-- C4: constructing a `ModelReport` with an empty detector set raises
`ValueError` for every model; with a non-empty detector set it succeeds
and maps every detector name to the empty set of observer fqns (and
starts with both flags cleared). -/
theorem init_detector_set_spec (m : GraphModule) (ds : List Detector)
    (hne : ds ≠ []) :
    ModelReport.init m [] = .error "Should include at least 1 desired report" ∧
    ∃ r, ModelReport.init m ds = .ok r ∧
      r.preparedFlag = false ∧
      r.removedObservers = false ∧
      ∀ d ∈ ds, PyDict.lookup r.detectorNameToObserverFqns d.name = some [] := by
  constructor
  · rfl
  · have hlen : ¬ds.length = 0 := by
      simpa [List.length_eq_zero] using hne
    refine ⟨{ model := m
              desiredReportDetectors := ds
              desiredDetectorNames := (ds.map (·.name)).dedup
              detectorNameToObserverFqns :=
                ((ds.map (·.name)).dedup).map (fun n => (n, []))
              preparedFlag := false
              removedObservers := false
              generatedReports := [] }, ?_, rfl, rfl, ?_⟩
    · simp [ModelReport.init, hlen]
    · intro d hd
      exact lookup_init_map _ _ (List.mem_dedup.mpr (List.mem_map_of_mem _ hd))

/-- Witness for C4 at the sample model and detector list. -/
theorem init_detector_set_spec_witness :
    ([sampleDetector] ≠ ([] : List Detector)) ∧
    (ModelReport.init sampleModel [] =
        .error "Should include at least 1 desired report" ∧
     ∃ r, ModelReport.init sampleModel [sampleDetector] = .ok r ∧
       r.preparedFlag = false ∧
       r.removedObservers = false ∧
       ∀ d ∈ [sampleDetector],
         PyDict.lookup r.detectorNameToObserverFqns d.name = some []) :=
  ⟨List.cons_ne_nil _ _, init_detector_set_spec sampleModel [sampleDetector]
    (List.cons_ne_nil _ _)⟩

/-! ## Characterizing `prepare_detailed_calibration` -/

/-- A fold that threads a pair componentwise is the pair of the
component folds. -/
theorem foldl_pair {α β γ : Type} (f : α → γ → α) (g : β → γ → β)
    (l : List γ) (a : α) (b : β) :
    l.foldl (fun acc x => (f acc.1 x, g acc.2 x)) (a, b) =
      (l.foldl f a, l.foldl g b) := by
  induction l generalizing a b with
  | nil => rfl
  | cons x rest ih => simpa using ih (f a x) (g b x)

namespace ModelReport

/-- The deduplicated `insert_observers_fqns` dictionary accumulated by
`prepare_detailed_calibration` over all detectors. -/
def insertObserversFqnsOf (s : ModelReport) : PyDict ObserverInsertInfo :=
  s.desiredReportDetectors.foldl
    (fun acc d => PyDict.update acc (d.determineObserverInsertPoints s.model))
    []

/-- The `_detector_name_to_observer_fqns` map after preparation. -/
def preparedNameMap (s : ModelReport) : PyDict (List String) :=
  s.desiredReportDetectors.foldl
    (fun acc d =>
      PyDict.insert acc d.name
        (PyDict.keys (d.determineObserverInsertPoints s.model)))
    s.detectorNameToObserverFqns

/-- The model after all observer insertions of preparation. -/
def preparedModel (s : ModelReport) : GraphModule :=
  (s.insertObserversFqnsOf).foldl
    (fun m p => insertObserverAroundModule m p.1 p.2) s.model

/-- On an unprepared instance, `prepare_detailed_calibration` succeeds
and its effect is exactly: insert all deduplicated observers, record
each detector's fqns, set the prepared flag, and return the model. -/
theorem prepare_eq (s : ModelReport) (h : s.preparedFlag = false) :
    s.prepareDetailedCalibration =
      (.ok s.preparedModel,
       { s with model := s.preparedModel
                detectorNameToObserverFqns := s.preparedNameMap
                preparedFlag := true }) := by
  have hfold := foldl_pair
      (fun acc d => PyDict.update acc (d.determineObserverInsertPoints s.model))
      (fun acc (d : Detector) =>
        PyDict.insert acc d.name
          (PyDict.keys (d.determineObserverInsertPoints s.model)))
      s.desiredReportDetectors [] s.detectorNameToObserverFqns
  simp only [ModelReport.prepareDetailedCalibration, h, Bool.false_eq_true,
    if_false]
  rw [hfold]
  rfl

end ModelReport

/-! ## C5: preparing twice raises -/

/-- C5: whenever a first `prepare_detailed_calibration` call succeeds,
the instance was unprepared before it, the resulting state has the
prepared flag set together with all observer insertions applied (the
flag is observable only with the insertions complete), and a second
call on the resulting state raises `ValueError` leaving it unchanged. -/
theorem prepare_twice_raises_spec (s s' : ModelReport) (g : GraphModule)
    (h : s.prepareDetailedCalibration = (.ok g, s')) :
    s.preparedFlag = false ∧
    s'.preparedFlag = true ∧
    g = s'.model ∧
    s'.model = s.preparedModel ∧
    s'.prepareDetailedCalibration =
      (.error "Already ran preparing detailed callibration. Run the report generation next after callibration.",
       s') := by
  have hflag : s.preparedFlag = false := by
    by_contra hc
    rw [Bool.not_eq_false] at hc
    simp [ModelReport.prepareDetailedCalibration, hc] at h
  rw [ModelReport.prepare_eq s hflag] at h
  simp only [Prod.mk.injEq, Except.ok.injEq] at h
  obtain ⟨h1, h2⟩ := h
  subst h1
  subst h2
  refine ⟨hflag, rfl, rfl, rfl, ?_⟩
  simp [ModelReport.prepareDetailedCalibration]

/-- Witness for C5 at the sample state. -/
theorem prepare_twice_raises_spec_witness :
    sampleState.prepareDetailedCalibration =
      (.ok (sampleState.prepareDetailedCalibration).2.model,
       (sampleState.prepareDetailedCalibration).2) ∧
    (sampleState.preparedFlag = false ∧
     (sampleState.prepareDetailedCalibration).2.preparedFlag = true ∧
     (sampleState.prepareDetailedCalibration).2.model =
       (sampleState.prepareDetailedCalibration).2.model ∧
     (sampleState.prepareDetailedCalibration).2.model =
       sampleState.preparedModel ∧
     (sampleState.prepareDetailedCalibration).2.prepareDetailedCalibration =
       (.error "Already ran preparing detailed callibration. Run the report generation next after callibration.",
        (sampleState.prepareDetailedCalibration).2)) :=
  ⟨rfl, prepare_twice_raises_spec sampleState
    (sampleState.prepareDetailedCalibration).2
    (sampleState.prepareDetailedCalibration).2.model rfl⟩

/-! ## C6: deduplicated insertion and per-detector recording -/

/-- Helper: folding name-keyed inserts over detectors none of which is
named `n` leaves the entry for `n` alone. -/
theorem lookup_foldl_insert_of_not_mem {V : Type} (f : Detector → V)
    (l : List Detector) (acc : PyDict V) (n : String)
    (h : ∀ d ∈ l, d.name ≠ n) :
    PyDict.lookup (l.foldl (fun a x => PyDict.insert a x.name (f x)) acc) n =
      PyDict.lookup acc n := by
  induction l generalizing acc with
  | nil => rfl
  | cons x rest ih =>
    rw [List.foldl_cons,
      ih _ (fun d' hd' => h d' (List.mem_cons_of_mem _ hd'))]
    exact PyDict.lookup_insert_ne acc x.name n (f x)
      (fun hc => h x (List.mem_cons_self _ _) hc.symm)

/-- Helper: with pairwise distinct detector names, the name-keyed fold
records for every listed detector exactly its own value. -/
theorem lookup_foldl_insert_of_mem {V : Type} (f : Detector → V)
    (l : List Detector) (acc : PyDict V) (d : Detector)
    (hnd : (l.map (·.name)).Nodup) (hd : d ∈ l) :
    PyDict.lookup (l.foldl (fun a x => PyDict.insert a x.name (f x)) acc) d.name =
      some (f d) := by
  induction l generalizing acc with
  | nil => cases hd
  | cons x rest ih =>
    simp only [List.map_cons, List.nodup_cons] at hnd
    rcases List.mem_cons.mp hd with hdx | hdx
    · subst hdx
      rw [List.foldl_cons,
        lookup_foldl_insert_of_not_mem f rest _ d.name
          (fun d' hd' hc => hnd.1 (hc ▸ List.mem_map_of_mem (·.name) hd'))]
      exact PyDict.lookup_insert_self acc d.name (f d)
    · rw [List.foldl_cons]
      exact ih _ hnd.2 hdx

/-- Helper: membership in the keys of a fold of dict updates. -/
theorem mem_keys_foldl_update {V : Type} (g : Detector → PyDict V)
    (l : List Detector) (acc : PyDict V) (k : String) :
    k ∈ PyDict.keys (l.foldl (fun a d => PyDict.update a (g d)) acc) ↔
      k ∈ PyDict.keys acc ∨ ∃ d ∈ l, k ∈ PyDict.keys (g d) := by
  induction l generalizing acc with
  | nil => simp
  | cons x rest ih =>
    rw [List.foldl_cons, ih, PyDict.mem_keys_update]
    constructor
    · rintro ((h | h) | h)
      · exact Or.inl h
      · exact Or.inr ⟨x, List.mem_cons_self _ _, h⟩
      · rcases h with ⟨d, hd, hk⟩
        exact Or.inr ⟨d, List.mem_cons_of_mem _ hd, hk⟩
    · rintro (h | ⟨d, hd, hk⟩)
      · exact Or.inl (Or.inl h)
      · rcases List.mem_cons.mp hd with hdx | hdx
        · exact Or.inl (Or.inr (hdx ▸ hk))
        · exact Or.inr ⟨d, hdx, hk⟩

/-- Helper: a fold of dict updates preserves duplicate-freeness of the
keys. -/
theorem keys_nodup_foldl_update {V : Type} (g : Detector → PyDict V)
    (l : List Detector) (acc : PyDict V) (h : (PyDict.keys acc).Nodup) :
    (PyDict.keys (l.foldl (fun a d => PyDict.update a (g d)) acc)).Nodup := by
  induction l generalizing acc with
  | nil => exact h
  | cons x rest ih => exact ih _ (PyDict.keys_nodup_update _ _ h)

/-- Helper: one observer insertion adds exactly one node (the freshly
created `call_module` node). -/
theorem countP_insertObserver (m : GraphModule) (obsFqn : String)
    (info : ObserverInsertInfo) (p : Node → Bool) :
    ((ModelReport.insertObserverAroundModule m obsFqn info).nodes.countP p) =
      m.nodes.countP p +
        (if p { id := m.freshId, op := "call_module", target := obsFqn }
         then 1 else 0) := by
  simp only [ModelReport.insertObserverAroundModule]
  rw [List.countP_append, List.countP_append]
  have htd : (m.nodes.take (if info.isPost
        then m.nodes.findIdx (fun n => n == info.targetNode) + 1
        else m.nodes.findIdx (fun n => n == info.targetNode))).countP p +
      (m.nodes.drop (if info.isPost
        then m.nodes.findIdx (fun n => n == info.targetNode) + 1
        else m.nodes.findIdx (fun n => n == info.targetNode))).countP p =
      m.nodes.countP p := by
    rw [← List.countP_append, List.take_append_drop]
  simp only [List.countP_cons, List.countP_nil] at *
  omega

/-- Helper: the insertion fold adds, for every fqn, as many nodes with
that target as there are entries of the dictionary keyed by it. -/
theorem countP_foldl_insertObserver (l : PyDict ObserverInsertInfo)
    (m : GraphModule) (fqn : String) :
    ((l.foldl (fun mm p => ModelReport.insertObserverAroundModule mm p.1 p.2)
        m).nodes.countP (fun n => n.target == fqn)) =
      m.nodes.countP (fun n => n.target == fqn) +
        l.countP (fun p => p.1 == fqn) := by
  induction l generalizing m with
  | nil => simp
  | cons x rest ih =>
    rw [List.foldl_cons, ih, countP_insertObserver, List.countP_cons]
    simp only []
    omega

/-- Helper: no entry of a dict has a key outside its key list. -/
theorem countP_keys_eq_zero {V : Type} (l : PyDict V) (fqn : String)
    (h : fqn ∉ PyDict.keys l) :
    l.countP (fun p => p.1 == fqn) = 0 := by
  induction l with
  | nil => rfl
  | cons x rest ih =>
    simp only [PyDict.keys_cons, List.mem_cons, not_or] at h
    rw [List.countP_cons, ih h.2]
    have hbeq : (x.1 == fqn) = false := by
      rw [beq_eq_false_iff_ne]
      exact fun hc => h.1 hc.symm
    simp [hbeq]

/-- Helper: in a dict with duplicate-free keys, each fqn keys at most
one entry. -/
theorem countP_keys_eq_ite {V : Type} (l : PyDict V) (fqn : String)
    (h : (PyDict.keys l).Nodup) :
    l.countP (fun p => p.1 == fqn) = if fqn ∈ PyDict.keys l then 1 else 0 := by
  induction l with
  | nil => simp
  | cons x rest ih =>
    simp only [PyDict.keys_cons, List.nodup_cons] at h
    rw [List.countP_cons]
    by_cases hx : x.1 = fqn
    · have hnot : fqn ∉ PyDict.keys rest := hx ▸ h.1
      rw [countP_keys_eq_zero rest fqn hnot]
      simp [PyDict.keys, hx]
    · have hbeq : (x.1 == fqn) = false := by
        rw [beq_eq_false_iff_ne]
        exact hx
      rw [ih h.2]
      simp only [hbeq, Bool.false_eq_true, if_false, Nat.add_zero,
        PyDict.keys_cons, List.mem_cons]
      by_cases hmem : fqn ∈ PyDict.keys rest
      · simp [hmem]
      · have hne : ¬fqn = x.1 := fun hc => hx hc.symm
        simp [hmem, hne]

/-- C6: on an unprepared instance with pairwise distinct detector
names, `prepare_detailed_calibration` succeeds; it returns the
instance's model, records for each detector name exactly the fqns that
detector's single invocation of `determine_observer_insert_points`
returned, deduplicates proposals into a mapping whose keys are exactly
the fqns proposed by some detector with no duplicates, and inserts
exactly one observer node per deduplicated fqn. -/
theorem prepare_dedup_and_record_spec (s : ModelReport)
    (hprep : s.preparedFlag = false)
    (hnames : (s.desiredReportDetectors.map (·.name)).Nodup) :
    ∃ g s', s.prepareDetailedCalibration = (.ok g, s') ∧
      g = s'.model ∧
      (∀ d ∈ s.desiredReportDetectors,
        PyDict.lookup s'.detectorNameToObserverFqns d.name =
          some (PyDict.keys (d.determineObserverInsertPoints s.model))) ∧
      (PyDict.keys s.insertObserversFqnsOf).Nodup ∧
      (∀ fqn, fqn ∈ PyDict.keys s.insertObserversFqnsOf ↔
        ∃ d ∈ s.desiredReportDetectors,
          fqn ∈ PyDict.keys (d.determineObserverInsertPoints s.model)) ∧
      (∀ fqn, s'.model.nodes.countP (fun n => n.target == fqn) =
        s.model.nodes.countP (fun n => n.target == fqn) +
          (if fqn ∈ PyDict.keys s.insertObserversFqnsOf then 1 else 0)) := by
  have hkeysnd : (PyDict.keys s.insertObserversFqnsOf).Nodup :=
    keys_nodup_foldl_update _ _ _ List.nodup_nil
  refine ⟨s.preparedModel, _, ModelReport.prepare_eq s hprep, rfl, ?_, hkeysnd,
    ?_, ?_⟩
  · intro d hd
    exact lookup_foldl_insert_of_mem
      (fun d => PyDict.keys (d.determineObserverInsertPoints s.model))
      s.desiredReportDetectors s.detectorNameToObserverFqns d hnames hd
  · intro fqn
    have := mem_keys_foldl_update
      (fun d => d.determineObserverInsertPoints s.model)
      s.desiredReportDetectors [] fqn
    simpa using this
  · intro fqn
    show ((s.insertObserversFqnsOf).foldl
        (fun m p => ModelReport.insertObserverAroundModule m p.1 p.2)
        s.model).nodes.countP (fun n => n.target == fqn) = _
    rw [countP_foldl_insertObserver, countP_keys_eq_ite _ _ hkeysnd]

/-- Witness for C6 at the sample state. -/
theorem prepare_dedup_and_record_spec_witness :
    (sampleState.preparedFlag = false ∧
     (sampleState.desiredReportDetectors.map (·.name)).Nodup) ∧
    (∃ g s', sampleState.prepareDetailedCalibration = (.ok g, s') ∧
      g = s'.model ∧
      (∀ d ∈ sampleState.desiredReportDetectors,
        PyDict.lookup s'.detectorNameToObserverFqns d.name =
          some (PyDict.keys (d.determineObserverInsertPoints sampleState.model))) ∧
      (PyDict.keys sampleState.insertObserversFqnsOf).Nodup ∧
      (∀ fqn, fqn ∈ PyDict.keys sampleState.insertObserversFqnsOf ↔
        ∃ d ∈ sampleState.desiredReportDetectors,
          fqn ∈ PyDict.keys (d.determineObserverInsertPoints sampleState.model)) ∧
      (∀ fqn, s'.model.nodes.countP (fun n => n.target == fqn) =
        sampleState.model.nodes.countP (fun n => n.target == fqn) +
          (if fqn ∈ PyDict.keys sampleState.insertObserversFqnsOf
           then 1 else 0))) :=
  ⟨⟨rfl, by decide⟩,
   prepare_dedup_and_record_spec sampleState rfl (by decide)⟩

/-! ## C8: qconfig-info combination is fieldwise Boolean OR -/

/-- Helper: folding the quantization update over a list of detector
infos ORs the two quantization fields across the list. -/
theorem foldl_quant_or (i : DetectorQConfigInfo)
    (l : List DetectorQConfigInfo) :
    (l.foldl ModelReport.updateDetectorQuantizaitonQconfigInfo i).isActivationDynamic
        = (i.isActivationDynamic || l.any (·.isActivationDynamic)) ∧
    (l.foldl ModelReport.updateDetectorQuantizaitonQconfigInfo i).isWeightPerChannel
        = (i.isWeightPerChannel || l.any (·.isWeightPerChannel)) := by
  induction l generalizing i with
  | nil => simp
  | cons x rest ih =>
    rw [List.foldl_cons]
    obtain ⟨h1, h2⟩ := ih (ModelReport.updateDetectorQuantizaitonQconfigInfo i x)
    refine ⟨?_, ?_⟩
    · rw [h1]
      simp [ModelReport.updateDetectorQuantizaitonQconfigInfo, Bool.or_assoc]
    · rw [h2]
      simp [ModelReport.updateDetectorQuantizaitonQconfigInfo, Bool.or_assoc]

/-- Helper: folding the equalization update ORs the equalization field
across the list. -/
theorem foldl_equal_or (i : DetectorQConfigInfo)
    (l : List DetectorQConfigInfo) :
    (l.foldl ModelReport.updateDetectorEqualizationQconfigInfo i).isEqualizationRecommended
        = (i.isEqualizationRecommended || l.any (·.isEqualizationRecommended)) := by
  induction l generalizing i with
  | nil => simp
  | cons x rest ih =>
    rw [List.foldl_cons,
      ih (ModelReport.updateDetectorEqualizationQconfigInfo i x)]
    simp [ModelReport.updateDetectorEqualizationQconfigInfo, Bool.or_assoc]

/-- C8: the combined `is_activation_dynamic` and
`is_weight_per_channel` fields (quantization) and the combined
`is_equalization_recommended` field (equalization) are the Boolean OR
of the merged infos — also over a whole list of detector infos for one
module — and the merges are commutative, associative and monotone in
each Boolean field. -/
theorem qconfig_info_merge_or_spec :
    (∀ c n : DetectorQConfigInfo,
      (ModelReport.updateDetectorQuantizaitonQconfigInfo c n).isActivationDynamic
          = (c.isActivationDynamic || n.isActivationDynamic) ∧
      (ModelReport.updateDetectorQuantizaitonQconfigInfo c n).isWeightPerChannel
          = (c.isWeightPerChannel || n.isWeightPerChannel) ∧
      (ModelReport.updateDetectorEqualizationQconfigInfo c n).isEqualizationRecommended
          = (c.isEqualizationRecommended || n.isEqualizationRecommended)) ∧
    (∀ (i : DetectorQConfigInfo) (l : List DetectorQConfigInfo),
      (l.foldl ModelReport.updateDetectorQuantizaitonQconfigInfo i).isActivationDynamic
          = (i.isActivationDynamic || l.any (·.isActivationDynamic)) ∧
      (l.foldl ModelReport.updateDetectorQuantizaitonQconfigInfo i).isWeightPerChannel
          = (i.isWeightPerChannel || l.any (·.isWeightPerChannel)) ∧
      (l.foldl ModelReport.updateDetectorEqualizationQconfigInfo i).isEqualizationRecommended
          = (i.isEqualizationRecommended || l.any (·.isEqualizationRecommended))) ∧
    (∀ c n : DetectorQConfigInfo,
      (ModelReport.updateDetectorQuantizaitonQconfigInfo c n).isActivationDynamic
          = (ModelReport.updateDetectorQuantizaitonQconfigInfo n c).isActivationDynamic ∧
      (ModelReport.updateDetectorQuantizaitonQconfigInfo c n).isWeightPerChannel
          = (ModelReport.updateDetectorQuantizaitonQconfigInfo n c).isWeightPerChannel ∧
      (ModelReport.updateDetectorEqualizationQconfigInfo c n).isEqualizationRecommended
          = (ModelReport.updateDetectorEqualizationQconfigInfo n c).isEqualizationRecommended) ∧
    (∀ a b c : DetectorQConfigInfo,
      (ModelReport.updateDetectorQuantizaitonQconfigInfo
          (ModelReport.updateDetectorQuantizaitonQconfigInfo a b) c).isActivationDynamic
        = (ModelReport.updateDetectorQuantizaitonQconfigInfo a
            (ModelReport.updateDetectorQuantizaitonQconfigInfo b c)).isActivationDynamic ∧
      (ModelReport.updateDetectorQuantizaitonQconfigInfo
          (ModelReport.updateDetectorQuantizaitonQconfigInfo a b) c).isWeightPerChannel
        = (ModelReport.updateDetectorQuantizaitonQconfigInfo a
            (ModelReport.updateDetectorQuantizaitonQconfigInfo b c)).isWeightPerChannel ∧
      (ModelReport.updateDetectorEqualizationQconfigInfo
          (ModelReport.updateDetectorEqualizationQconfigInfo a b) c).isEqualizationRecommended
        = (ModelReport.updateDetectorEqualizationQconfigInfo a
            (ModelReport.updateDetectorEqualizationQconfigInfo b c)).isEqualizationRecommended) ∧
    (∀ c n : DetectorQConfigInfo,
      (c.isActivationDynamic = true →
        (ModelReport.updateDetectorQuantizaitonQconfigInfo c n).isActivationDynamic = true) ∧
      (n.isActivationDynamic = true →
        (ModelReport.updateDetectorQuantizaitonQconfigInfo c n).isActivationDynamic = true) ∧
      (c.isWeightPerChannel = true →
        (ModelReport.updateDetectorQuantizaitonQconfigInfo c n).isWeightPerChannel = true) ∧
      (n.isWeightPerChannel = true →
        (ModelReport.updateDetectorQuantizaitonQconfigInfo c n).isWeightPerChannel = true) ∧
      (c.isEqualizationRecommended = true →
        (ModelReport.updateDetectorEqualizationQconfigInfo c n).isEqualizationRecommended = true) ∧
      (n.isEqualizationRecommended = true →
        (ModelReport.updateDetectorEqualizationQconfigInfo c n).isEqualizationRecommended = true)) := by
  refine ⟨?_, ?_, ?_, ?_, ?_⟩
  · intro c n
    exact ⟨rfl, rfl, rfl⟩
  · intro i l
    exact ⟨(foldl_quant_or i l).1, (foldl_quant_or i l).2, foldl_equal_or i l⟩
  · intro c n
    refine ⟨?_, ?_, ?_⟩ <;>
      simp [ModelReport.updateDetectorQuantizaitonQconfigInfo,
        ModelReport.updateDetectorEqualizationQconfigInfo, Bool.or_comm]
  · intro a b c
    refine ⟨?_, ?_, ?_⟩ <;>
      simp [ModelReport.updateDetectorQuantizaitonQconfigInfo,
        ModelReport.updateDetectorEqualizationQconfigInfo, Bool.or_assoc]
  · intro c n
    refine ⟨?_, ?_, ?_, ?_, ?_, ?_⟩ <;> intro h <;>
      simp [ModelReport.updateDetectorQuantizaitonQconfigInfo,
        ModelReport.updateDetectorEqualizationQconfigInfo, h]

/-- Witness for C8 (the monotonicity conjunct carries hypotheses):
instantiated at the sample info merged with itself. -/
theorem qconfig_info_merge_or_spec_witness :
    (sampleQInfo.isActivationDynamic = true ∧
     (ModelReport.updateDetectorQuantizaitonQconfigInfo sampleQInfo
        sampleQInfo).isActivationDynamic = true) ∧
    (ModelReport.updateDetectorQuantizaitonQconfigInfo sampleQInfo
        sampleQInfo).isWeightPerChannel
      = (sampleQInfo.isWeightPerChannel || sampleQInfo.isWeightPerChannel) :=
  ⟨⟨rfl, (qconfig_info_merge_or_spec.2.2.2.2 sampleQInfo sampleQInfo).1 rfl⟩,
   (qconfig_info_merge_or_spec.1 sampleQInfo sampleQInfo).2.1⟩

/-! ## C9: the removed-observers flag is monotone -/

/-- Helper: no method call ever resets `_removed_observers`. -/
theorem methodStep_removed_mono (s : ModelReport) (m : MethodCall)
    (h : s.removedObservers = true) :
    (methodStep s m).removedObservers = true := by
  cases m with
  | prepareDetailedCalibration =>
    cases hp : s.preparedFlag
    · simp [methodStep, ModelReport.prepare_eq s hp, h]
    · simp [methodStep, ModelReport.prepareDetailedCalibration, hp, h]
  | generateModelReport b =>
    cases hp : s.preparedFlag <;>
      simp [methodStep, ModelReport.generateModelReport, hp, h]
  | generateVisualizer => exact h
  | generateQconfigMapping => exact h
  | generateEqualizationMapping => exact h
  | getDesiredReportsNames => exact h
  | getObserversOfInterest => exact h

/-- C9: once the removed-observers flag is set, it stays set across
every sequence of method calls, and `generate_model_report` never
again succeeds. -/
theorem removed_observers_monotone (s : ModelReport)
    (calls : List MethodCall) (h : s.removedObservers = true) :
    (runCalls s calls).removedObservers = true ∧
    ∀ b : Bool, ∃ e, ((runCalls s calls).generateModelReport b).1 =
      Except.error e := by
  have hrun : ∀ (t : ModelReport), t.removedObservers = true →
      (runCalls t calls).removedObservers = true := by
    induction calls with
    | nil => exact fun t ht => ht
    | cons c rest ih =>
      intro t ht
      exact ih (methodStep t c) (methodStep_removed_mono t c ht)
  refine ⟨hrun s h, fun b => ?_⟩
  cases hp : (runCalls s calls).preparedFlag
  · exact ⟨"Cannot generate report without preparing model for callibration",
      by simp [ModelReport.generateModelReport, hp]⟩
  · exact ⟨"Cannot generate report on model you already removed observers from",
      by simp [ModelReport.generateModelReport, hp, hrun s h]⟩

/-- Witness for C9 at the sample post-removal state after further
method calls. -/
theorem removed_observers_monotone_witness :
    sampleRemovedState.removedObservers = true ∧
    ((runCalls sampleRemovedState
        [.prepareDetailedCalibration, .generateModelReport true,
         .generateQconfigMapping]).removedObservers = true ∧
     ∀ b : Bool, ∃ e,
       ((runCalls sampleRemovedState
          [.prepareDetailedCalibration, .generateModelReport true,
           .generateQconfigMapping]).generateModelReport b).1 =
         Except.error e) :=
  ⟨rfl, removed_observers_monotone sampleRemovedState
    [.prepareDetailedCalibration, .generateModelReport true,
     .generateQconfigMapping] rfl⟩

/-! ## C10: the "Node no longer exists" branch is unreachable -/

/-- Helper: `_get_node_from_fqn` either returns a (truthy) node present
in the graph with the requested target, or raises its own not-found
`ValueError`; it never returns `None`. -/
theorem getNodeFromFqn_spec (m : GraphModule) (fqn : String) :
    (∃ n, ModelReport.getNodeFromFqn m fqn = .ok n ∧ n ∈ m.nodes ∧
        n.target = fqn ∧ nodeTruthy n = true) ∨
    ModelReport.getNodeFromFqn m fqn =
      .error "The node_fqn is was not found within the module." := by
  unfold ModelReport.getNodeFromFqn
  cases hf : m.nodes.find? (fun n => n.target == fqn) with
  | none => exact Or.inr rfl
  | some n =>
    refine Or.inl ⟨n, rfl, List.mem_of_find?_eq_some hf, ?_, rfl⟩
    have hp := List.find?_some hf
    simpa using hp

/-- Helper: the removal loop can only raise the not-found error of
`_get_node_from_fqn`, never the "Node no longer exists" one. -/
theorem removeLoop_no_missing_error (m : GraphModule) (l : List String) :
    (ModelReport.removeObserversLoop m l).1 ≠
      .error "Node no longer exists in GraphModule structure" := by
  induction l generalizing m with
  | nil =>
    intro hc
    simp [ModelReport.removeObserversLoop] at hc
  | cons fqn rest ih =>
    cases hg : ModelReport.getNodeFromFqn (m.deleteSubmodule fqn) fqn with
    | error e =>
      have he : e = "The node_fqn is was not found within the module." := by
        rcases getNodeFromFqn_spec (m.deleteSubmodule fqn) fqn with
          ⟨n, hok, _⟩ | herr
        · rw [hok] at hg
          cases hg
        · rw [herr] at hg
          exact (Except.error.injEq _ _ ▸ congrArg id hg).symm ▸ rfl
      subst he
      simp [ModelReport.removeObserversLoop, hg]
    | ok n =>
      simp only [ModelReport.removeObserversLoop, hg, nodeTruthy, if_true]
      exact ih _

/-- Helper: `generate_model_report` never raises the "Node no longer
exists" error either. -/
theorem genReport_no_missing_error (s : ModelReport) (b : Bool) :
    (s.generateModelReport b).1 ≠
      .error "Node no longer exists in GraphModule structure" := by
  cases hp : s.preparedFlag
  · simp [ModelReport.generateModelReport, hp]
  · cases hr : s.removedObservers
    · cases b
      · simp [ModelReport.generateModelReport, hp, hr]
      · simp only [ModelReport.generateModelReport, hp, Bool.not_true,
          Bool.false_eq_true, if_false, hr]
        split
        · split
          · rename_i e m heq
            have hne := removeLoop_no_missing_error s.model
              (ModelReport.allObserversOfInterest
                { s with preparedFlag := true, removedObservers := true })
            rw [heq] at hne
            simpa using hne
          · simp
        · simp
    · simp [ModelReport.generateModelReport, hp, hr]

/-- C10: `_get_node_from_fqn` either returns a node of the graph with
the requested target (which is truthy) or raises its own `ValueError`
— it never returns `None` — so the `"Node no longer exists in
GraphModule structure"` branch of the observer-removal loop is
unreachable: neither the loop nor `generate_model_report` ever
produces that error. -/
theorem node_missing_branch_unreachable :
    (∀ (m : GraphModule) (fqn : String),
      (∃ n, ModelReport.getNodeFromFqn m fqn = .ok n ∧ n ∈ m.nodes ∧
          n.target = fqn ∧ nodeTruthy n = true) ∨
      ModelReport.getNodeFromFqn m fqn =
        .error "The node_fqn is was not found within the module.") ∧
    (∀ (m : GraphModule) (l : List String),
      (ModelReport.removeObserversLoop m l).1 ≠
        .error "Node no longer exists in GraphModule structure") ∧
    (∀ (s : ModelReport) (b : Bool),
      (s.generateModelReport b).1 ≠
        .error "Node no longer exists in GraphModule structure") :=
  ⟨getNodeFromFqn_spec, removeLoop_no_missing_error, genReport_no_missing_error⟩

/-- Witness for C10 at concrete inputs. -/
theorem node_missing_branch_unreachable_witness :
    ((∃ n, ModelReport.getNodeFromFqn sampleModel "fc" = .ok n ∧
        n ∈ sampleModel.nodes ∧ n.target = "fc" ∧ nodeTruthy n = true) ∨
      ModelReport.getNodeFromFqn sampleModel "fc" =
        .error "The node_fqn is was not found within the module.") ∧
    (ModelReport.removeObserversLoop sampleModel ["fc"]).1 ≠
      .error "Node no longer exists in GraphModule structure" ∧
    (sampleReadyState.generateModelReport true).1 ≠
      .error "Node no longer exists in GraphModule structure" :=
  ⟨node_missing_branch_unreachable.1 sampleModel "fc",
   node_missing_branch_unreachable.2.1 sampleModel ["fc"],
   node_missing_branch_unreachable.2.2 sampleReadyState true⟩

/-! ## C7: observer removal deletes every recorded observer -/

/-- Helper: after `delete_submodule`, the deleted fqn is gone. -/
theorem lookup_filter_ne_self {V : Type} (d : PyDict V) (fqn : String) :
    PyDict.lookup (d.filter (fun p => p.1 ≠ fqn)) fqn = none := by
  induction d with
  | nil => rfl
  | cons p rest ih =>
    by_cases hp : p.1 = fqn
    · simpa [List.filter_cons, hp] using ih
    · simpa [List.filter_cons, hp, PyDict.lookup, Ne.symm hp] using ih

/-- Helper: `delete_submodule` leaves every other fqn alone. -/
theorem lookup_filter_ne_other {V : Type} (d : PyDict V) (fqn k : String)
    (h : k ≠ fqn) :
    PyDict.lookup (d.filter (fun p => p.1 ≠ fqn)) k = PyDict.lookup d k := by
  induction d with
  | nil => rfl
  | cons p rest ih =>
    by_cases hp : p.1 = fqn
    · simpa [List.filter_cons, hp, PyDict.lookup, Ne.symm h] using ih
    · simp only [decide_not] at ih
      simp [List.filter_cons, hp, PyDict.lookup, ih]

/-- Helper: erasing a node that satisfies the predicate lowers the
count by one. -/
theorem countP_erase_self (l : List Node) (a : Node) (p : Node → Bool)
    (ha : a ∈ l) (hpa : p a = true) :
    (l.erase a).countP p + 1 = l.countP p := by
  induction l with
  | nil => cases ha
  | cons b rest ih =>
    rw [List.erase_cons]
    by_cases hb : b = a
    · subst hb
      simp [List.countP_cons, hpa]
    · have hba : (b == a) = false := by
        rw [beq_eq_false_iff_ne]
        exact hb
      simp only [hba, Bool.false_eq_true, if_false]
      rcases List.mem_cons.mp ha with h1 | h1
      · exact absurd h1.symm hb
      · rw [List.countP_cons, List.countP_cons, ← ih h1]
        omega

/-- Helper: erasing a node that fails the predicate keeps the count. -/
theorem countP_erase_other (l : List Node) (a : Node) (p : Node → Bool)
    (hpa : p a = false) :
    (l.erase a).countP p = l.countP p := by
  induction l with
  | nil => rfl
  | cons b rest ih =>
    rw [List.erase_cons]
    by_cases hb : b = a
    · subst hb
      simp [List.countP_cons, hpa]
    · have hba : (b == a) = false := by
        rw [beq_eq_false_iff_ne]
        exact hb
      simp only [hba, Bool.false_eq_true, if_false]
      rw [List.countP_cons, List.countP_cons, ih]

/-- Helper: membership in `all_observers_of_interest` is exactly being
recorded for some detector. -/
theorem mem_allObserversOfInterest (s : ModelReport) (fqn : String) :
    fqn ∈ s.allObserversOfInterest ↔
      ∃ p ∈ s.detectorNameToObserverFqns, fqn ∈ p.2 := by
  unfold ModelReport.allObserversOfInterest
  rw [List.mem_dedup]
  have key : ∀ (l : PyDict (List String)) (acc : List String),
      fqn ∈ l.foldl (fun acc p => acc ++ p.2) acc ↔
        fqn ∈ acc ∨ ∃ p ∈ l, fqn ∈ p.2 := by
    intro l
    induction l with
    | nil => simp
    | cons x rest ih =>
      intro acc
      rw [List.foldl_cons, ih (acc ++ x.2)]
      constructor
      · rintro (h | ⟨p, hp, hf⟩)
        · rcases List.mem_append.mp h with h | h
          · exact Or.inl h
          · exact Or.inr ⟨x, List.mem_cons_self _ _, h⟩
        · exact Or.inr ⟨p, List.mem_cons_of_mem _ hp, hf⟩
      · rintro (h | ⟨p, hp, hf⟩)
        · exact Or.inl (List.mem_append.mpr (Or.inl h))
        · rcases List.mem_cons.mp hp with h1 | h1
          · exact Or.inl (List.mem_append.mpr (Or.inr (h1 ▸ hf)))
          · exact Or.inr ⟨p, h1, hf⟩
  simpa using key s.detectorNameToObserverFqns []

/-- Helper: on a graph holding exactly one node per listed fqn, the
removal loop succeeds, removes exactly the listed submodules and
nodes, and touches nothing else. -/
theorem removeLoop_ok (m : GraphModule) (l : List String)
    (hnd : l.Nodup)
    (hcount : ∀ fqn ∈ l, m.nodes.countP (fun n => n.target == fqn) = 1) :
    ∃ m', ModelReport.removeObserversLoop m l = (.ok (), m') ∧
      (∀ fqn ∈ l, PyDict.lookup m'.modules fqn = none ∧
        m'.nodes.countP (fun n => n.target == fqn) = 0) ∧
      (∀ fqn, fqn ∉ l →
        PyDict.lookup m'.modules fqn = PyDict.lookup m.modules fqn ∧
        m'.nodes.countP (fun n => n.target == fqn) =
          m.nodes.countP (fun n => n.target == fqn)) := by
  induction l generalizing m with
  | nil => exact ⟨m, rfl, by simp, fun fqn _ => ⟨rfl, rfl⟩⟩
  | cons fqn rest ih =>
    simp only [List.nodup_cons] at hnd
    have hc1 : m.nodes.countP (fun n => n.target == fqn) = 1 :=
      hcount fqn (List.mem_cons_self _ _)
    have hnodes1 : (m.deleteSubmodule fqn).nodes = m.nodes := rfl
    obtain ⟨n, hfind⟩ :
        ∃ n, (m.deleteSubmodule fqn).nodes.find?
          (fun x => x.target == fqn) = some n := by
      rw [hnodes1]
      rw [← Option.isSome_iff_exists]
      rw [List.find?_isSome]
      have : 0 < m.nodes.countP (fun n => n.target == fqn) := by omega
      obtain ⟨x, hx, hpx⟩ := List.countP_pos_iff.mp this
      exact ⟨x, hx, hpx⟩
    have hmemn : n ∈ m.nodes := by
      have := List.mem_of_find?_eq_some hfind
      rwa [hnodes1] at this
    have htarget : n.target = fqn := by
      have := List.find?_some hfind
      simpa using this
    have m2nodes : ((m.deleteSubmodule fqn).eraseNode n).nodes =
        m.nodes.erase n := rfl
    have m2mods : ((m.deleteSubmodule fqn).eraseNode n).modules =
        m.modules.filter (fun p => p.1 ≠ fqn) := rfl
    have hcount2 : ∀ g ∈ rest,
        ((m.deleteSubmodule fqn).eraseNode n).nodes.countP
          (fun x => x.target == g) = 1 := by
      intro g hg
      rw [m2nodes]
      have hng : (n.target == g) = false := by
        rw [beq_eq_false_iff_ne, htarget]
        exact fun hc => hnd.1 (hc ▸ hg)
      rw [countP_erase_other _ _ _ hng]
      exact hcount g (List.mem_cons_of_mem _ hg)
    obtain ⟨m', hloop, hdel, hframe⟩ :=
      ih ((m.deleteSubmodule fqn).eraseNode n) hnd.2 hcount2
    have hstep : ModelReport.removeObserversLoop m (fqn :: rest) =
        ModelReport.removeObserversLoop
          ((m.deleteSubmodule fqn).eraseNode n) rest := by
      simp only [ModelReport.removeObserversLoop,
        ModelReport.getNodeFromFqn, hfind, nodeTruthy, if_true]
    refine ⟨m', hstep ▸ hloop, ?_, ?_⟩
    · intro g hg
      rcases List.mem_cons.mp hg with h1 | h1
      · subst h1
        obtain ⟨hm, hn⟩ := hframe g hnd.1
        constructor
        · rw [hm, m2mods]
          exact lookup_filter_ne_self m.modules g
        · rw [hn, m2nodes]
          have hpn : (n.target == g) = true := by
            rw [htarget]
            exact beq_self_eq_true g
          have := countP_erase_self m.nodes n (fun x => x.target == g)
            hmemn hpn
          omega
      · exact hdel g h1
    · intro g hgni
      have hgn1 : g ∉ rest := fun hc => hgni (List.mem_cons_of_mem _ hc)
      have hgne : g ≠ fqn := fun hc => hgni (hc ▸ List.mem_cons_self _ _)
      obtain ⟨hm, hn⟩ := hframe g hgn1
      constructor
      · rw [hm, m2mods]
        exact lookup_filter_ne_other m.modules fqn g hgne
      · rw [hn, m2nodes]
        have hng : (n.target == g) = false := by
          rw [beq_eq_false_iff_ne, htarget]
          exact fun hc => hgne hc.symm
        exact countP_erase_other _ _ _ hng

/-- The `reports_of_interest` dictionary `generate_model_report`
computes: each detector's report output keyed by its name. -/
def ModelReport.reportsOfInterestOf (s : ModelReport) :
    PyDict (String × PyDict (PyDict Val)) :=
  s.desiredReportDetectors.foldl
    (fun acc d => PyDict.insert acc d.name (d.generateDetectorReport s.model))
    []

/-- C7: on a prepared instance that has not removed observers (and
whose graph holds exactly one node per recorded observer fqn, as a
successful preparation guarantees), `generate_model_report` with
`remove_inserted_observers=True` succeeds, sets the removed flag, and
deletes every recorded observer fqn both from the submodules and from
the graph; with `remove_inserted_observers=False` the model is left
untouched and the flag stays false. -/
theorem generate_remove_observers_spec (s : ModelReport)
    (hp : s.preparedFlag = true) (hr : s.removedObservers = false)
    (hcount : ∀ fqn ∈ s.allObserversOfInterest,
      s.model.nodes.countP (fun n => n.target == fqn) = 1) :
    (∃ r s', s.generateModelReport true = (.ok r, s') ∧
      s'.removedObservers = true ∧
      (∀ fqn, (∃ p ∈ s.detectorNameToObserverFqns, fqn ∈ p.2) →
        PyDict.contains s'.model.modules fqn = false ∧
        s'.model.nodes.countP (fun n => n.target == fqn) = 0)) ∧
    ((s.generateModelReport false).2.model = s.model ∧
     (s.generateModelReport false).2.removedObservers = false ∧
     ∃ r, (s.generateModelReport false).1 = .ok r) := by
  obtain ⟨m', hloop, hdel, hframe⟩ :=
    removeLoop_ok s.model s.allObserversOfInterest
      (by unfold ModelReport.allObserversOfInterest
          exact List.nodup_dedup _) hcount
  have hloop' : ModelReport.removeObserversLoop s.model
      (ModelReport.allObserversOfInterest
        { s with preparedFlag := true, removedObservers := true }) =
      (.ok (), m') := hloop
  have hgen : s.generateModelReport true =
      (.ok s.reportsOfInterestOf,
       { s with preparedFlag := true, removedObservers := true, model := m',
                generatedReports :=
                  s.reportsOfInterestOf.map (fun p => (p.1, p.2.2)) }) := by
    simp only [ModelReport.generateModelReport, hp, hr, Bool.not_true,
      Bool.false_eq_true, if_false, eq_self_iff_true, if_true]
    rw [hloop']
    rfl
  constructor
  · refine ⟨s.reportsOfInterestOf, _, hgen, rfl, ?_⟩
    intro fqn hrec
    have hmem : fqn ∈ s.allObserversOfInterest :=
      (mem_allObserversOfInterest s fqn).mpr hrec
    obtain ⟨hm, hn⟩ := hdel fqn hmem
    constructor
    · rw [PyDict.contains_eq_false_iff]
      exact hm
    · exact hn
  · have hgen2 : s.generateModelReport false =
        (.ok s.reportsOfInterestOf,
         { s with generatedReports :=
             s.reportsOfInterestOf.map (fun p => (p.1, p.2.2)) }) := by
      simp only [ModelReport.generateModelReport, hp, hr, Bool.not_true,
        Bool.false_eq_true, if_false]
      rfl
    rw [hgen2]
    exact ⟨rfl, hr, ⟨s.reportsOfInterestOf, rfl⟩⟩

/-- Witness for C7 at the sample prepared state. -/
theorem generate_remove_observers_spec_witness :
    (sampleReadyState.preparedFlag = true ∧
     sampleReadyState.removedObservers = false ∧
     (∀ fqn ∈ sampleReadyState.allObserversOfInterest,
       sampleReadyState.model.nodes.countP (fun n => n.target == fqn) = 1)) ∧
    ((∃ r s', sampleReadyState.generateModelReport true = (.ok r, s') ∧
        s'.removedObservers = true ∧
        (∀ fqn, (∃ p ∈ sampleReadyState.detectorNameToObserverFqns, fqn ∈ p.2) →
          PyDict.contains s'.model.modules fqn = false ∧
          s'.model.nodes.countP (fun n => n.target == fqn) = 0)) ∧
     ((sampleReadyState.generateModelReport false).2.model =
        sampleReadyState.model ∧
      (sampleReadyState.generateModelReport false).2.removedObservers = false ∧
      ∃ r, (sampleReadyState.generateModelReport false).1 = .ok r)) :=
  ⟨⟨rfl, rfl, by decide⟩,
   generate_remove_observers_spec sampleReadyState rfl rfl (by decide)⟩

/-! ## C1: report aggregation merges or fails on conflicts -/

/-- Helper: `_is_same_info_for_same_key` holds exactly when every
shared key carries equal values. -/
theorem isSameInfo_iff (a b : PyDict Val) :
    ModelReport.isSameInfoForSameKey a b = true ↔
      ∀ k, PyDict.contains a k = true → PyDict.contains b k = true →
        PyDict.lookup a k = PyDict.lookup b k := by
  unfold ModelReport.isSameInfoForSameKey
  rw [List.all_eq_true]
  constructor
  · intro h k hka hkb
    have hkmem : k ∈ (PyDict.keys a).filter (fun k => PyDict.contains b k) := by
      rw [List.mem_filter]
      exact ⟨(PyDict.contains_iff_mem_keys a k).mp hka, hkb⟩
    have hmatch := h k hkmem
    obtain ⟨va, hva⟩ := Option.isSome_iff_exists.mp hka
    obtain ⟨vb, hvb⟩ := Option.isSome_iff_exists.mp hkb
    rw [hva, hvb]
    rw [hva, hvb] at hmatch
    simp only [] at hmatch
    rw [(valMatches_iff_eq va vb).mp hmatch]
  · intro h k hk
    rw [List.mem_filter] at hk
    have hka : PyDict.contains a k = true :=
      (PyDict.contains_iff_mem_keys a k).mpr hk.1
    have hkb : PyDict.contains b k = true := hk.2
    obtain ⟨va, hva⟩ := Option.isSome_iff_exists.mp hka
    obtain ⟨vb, hvb⟩ := Option.isSome_iff_exists.mp hkb
    have heq := h k hka hkb
    rw [hva, hvb] at heq
    rw [hva, hvb]
    simp only []
    injection heq with heq'
    rw [heq']
    exact (valMatches_iff_eq vb vb).mpr rfl

/-- C1: when two reports carry feature dictionaries for the same
module fqn, a shared feature key with different values makes the
aggregation raise `ValueError`, while equal values on every shared key
make it merge the two dictionaries into one whose keys are the union
of both key sets. -/
theorem reformat_merge_conflict_spec (s : ModelReport)
    (r1 r2 fqn : String) (d1 d2 : PyDict Val) (mod : NNModule)
    (hrep : s.generatedReports = [(r1, [(fqn, d1)]), (r2, [(fqn, d2)])])
    (hmods : s.model.modules = [(fqn, mod)]) :
    ((∃ k, PyDict.contains d1 k = true ∧ PyDict.contains d2 k = true ∧
        PyDict.lookup d1 k ≠ PyDict.lookup d2 k) →
      s.reformatReportsForVisualizer =
        .error "You have the same key with different values across detectors. Someone incorrectly implemented a detector with conflicting keys to existing detectors.") ∧
    ((∀ k, PyDict.contains d1 k = true → PyDict.contains d2 k = true →
        PyDict.lookup d1 k = PyDict.lookup d2 k) →
      s.reformatReportsForVisualizer = .ok [(fqn, PyDict.update d2 d1)] ∧
      (∀ k, k ∈ PyDict.keys (PyDict.update d2 d1) ↔
        (k ∈ PyDict.keys d1 ∨ k ∈ PyDict.keys d2))) := by
  have hconfl : ModelReport.isSameInfoForSameKey d2 d1 = false →
      s.reformatReportsForVisualizer =
        .error "You have the same key with different values across detectors. Someone incorrectly implemented a detector with conflicting keys to existing detectors." := by
    intro hsame
    simp [ModelReport.reformatReportsForVisualizer, hrep, List.foldlM,
      Bind.bind, Except.bind, Pure.pure, Except.pure, PyDict.lookup,
      PyDict.insert, hsame]
  have hok : ModelReport.isSameInfoForSameKey d2 d1 = true →
      s.reformatReportsForVisualizer = .ok [(fqn, PyDict.update d2 d1)] := by
    intro hsame
    simp [ModelReport.reformatReportsForVisualizer, hrep, hmods,
      List.foldlM, Bind.bind, Except.bind, Pure.pure, Except.pure,
      PyDict.lookup, PyDict.insert, hsame, List.foldl]
  constructor
  · rintro ⟨k, hk1, hk2, hkne⟩
    have hsame : ModelReport.isSameInfoForSameKey d2 d1 = false := by
      rw [Bool.eq_false_iff]
      intro hc
      exact hkne ((isSameInfo_iff d2 d1).mp hc k hk2 hk1).symm
    exact hconfl hsame
  · intro h
    have hsame : ModelReport.isSameInfoForSameKey d2 d1 = true :=
      (isSameInfo_iff d2 d1).mpr (fun k h2 h1 => (h k h1 h2).symm)
    refine ⟨hok hsame, fun k => ?_⟩
    rw [PyDict.mem_keys_update]
    tauto

/-- A sample state whose two generated reports both carry features for
the `fc` module, with equal values on the shared key. -/
def sampleReportState : ModelReport :=
  { sampleState with
    model := { modules := [("fc", ⟨"fc"⟩)], nodes := [sampleNode] }
    generatedReports :=
      [("det1", [("fc", [("feat", Val.int 1)])]),
       ("det2", [("fc", [("feat", Val.int 1), ("other", Val.bool true)])])] }

/-- Witness for C1 at the sample two-report state (no conflicting
shared key, so the merge succeeds with the union of the keys). -/
theorem reformat_merge_conflict_spec_witness :
    (∀ k, PyDict.contains [("feat", Val.int 1)] k = true →
        PyDict.contains [("feat", Val.int 1), ("other", Val.bool true)] k = true →
        PyDict.lookup [("feat", Val.int 1)] k =
          PyDict.lookup [("feat", Val.int 1), ("other", Val.bool true)] k) ∧
    (sampleReportState.reformatReportsForVisualizer =
        .ok [("fc", PyDict.update
          [("feat", Val.int 1), ("other", Val.bool true)]
          [("feat", Val.int 1)])] ∧
     (∀ k, k ∈ PyDict.keys (PyDict.update
          [("feat", Val.int 1), ("other", Val.bool true)]
          [("feat", Val.int 1)]) ↔
        (k ∈ PyDict.keys [("feat", Val.int 1)] ∨
         k ∈ PyDict.keys [("feat", Val.int 1), ("other", Val.bool true)]))) := by
  have hv : ∀ k, PyDict.contains [("feat", Val.int 1)] k = true →
      PyDict.contains [("feat", Val.int 1), ("other", Val.bool true)] k = true →
      PyDict.lookup [("feat", Val.int 1)] k =
        PyDict.lookup [("feat", Val.int 1), ("other", Val.bool true)] k := by
    intro k h1 h2
    by_cases hk : "feat" = k
    · simp [PyDict.lookup, hk]
    · simp [PyDict.contains, PyDict.lookup, hk] at h1
  exact ⟨hv,
    (reformat_merge_conflict_spec sampleReportState "det1" "det2" "fc"
      [("feat", Val.int 1)] [("feat", Val.int 1), ("other", Val.bool true)]
      ⟨"fc"⟩ rfl rfl).2 hv⟩
